import Mathlib

/-!
Verification of `msub_generic.py` (EdinburghGenomics/slurm_tools).

The script compiles a flat list of shell commands into a SLURM array-job
script (header + per-task `case` dispatch + footer), writes it to disk
without clobbering existing files, and launches `sbatch` (or just prints
the command in `--nosubmit` mode).

The embedding below mirrors the Python source.  Python strings are Lean
`String`s; Python string primitives (`strip`, `startswith`, `split`,
`join`, `int()`, `str()`) are modelled by the `py*` functions, restricted
to ASCII whitespace and ASCII decimal digits (the only characters the
program's own emitted text and documented inputs use).
-/

set_option maxRecDepth 4000

namespace Msub

/-! ### Python string primitives -/

/-- ASCII whitespace, as stripped by Python's `str.strip()`. -/
def isPySpace (c : Char) : Bool :=
  c = ' ' || c = '\t' || c = '\n' || c = '\r' || c = '\x0b' || c = '\x0c'

/-- Python `s.strip()`. -/
def pyStrip (s : String) : String :=
  String.mk (((s.data.dropWhile isPySpace).reverse.dropWhile isPySpace).reverse)

/-- Python `s.startswith(p)`. -/
def pyStartsWith (s p : String) : Bool :=
  List.isPrefixOf p.data s.data

/-- Python `c in s` for a single character. -/
def pyContains (s : String) (c : Char) : Bool :=
  s.data.contains c

/-- Python `s.endswith(p)`. -/
def pyEndsWith (s p : String) : Bool :=
  List.isSuffixOf p.data s.data

/-- Python `s.split(c)` for a one-character separator (keeps empty pieces). -/
def pySplitChar (s : String) (c : Char) : List String :=
  (List.splitOnP (· = c) s.data).map String.mk

/-- Python `sep.join(parts)`. -/
def pyJoin (sep : String) : List String → String
  | [] => ""
  | [x] => x
  | x :: y :: xs => x ++ sep ++ pyJoin sep (y :: xs)

/-- Python `s.split()` (split on whitespace runs, dropping empty pieces). -/
def pySplitWs (s : String) : List String :=
  ((List.splitOnP isPySpace s.data).filter (· ≠ [])).map String.mk

/-- Python format spec `{v:<w}`: left-justify to width `w` with spaces. -/
def ljust (s : String) (w : Nat) : String :=
  s ++ String.mk (List.replicate (w - s.length) ' ')

/-- Python `s[:-n]` for `n > 0` (drop the last `n` characters). -/
def pyDropRight (s : String) (n : Nat) : String :=
  String.mk (s.data.take (s.data.length - n))

/-- Python `os.path.basename`: everything after the last `/`. -/
def basename (p : String) : String :=
  (pySplitChar p '/').getLastD ""

/-! ### Decimal rendering (Python `str` on integers) -/

/-- The ASCII digit character for `n < 10`. -/
def digitChar (n : Nat) : Char := Char.ofNat (48 + n)

/-- Fuel-driven decimal rendering; with fuel `> n` it renders `n` exactly. -/
def natReprAux : Nat → Nat → List Char
  | 0, _ => []
  | fuel + 1, n =>
    if n < 10 then [digitChar n]
    else natReprAux fuel (n / 10) ++ [digitChar (n % 10)]

/-- Python `str(n)` for a natural number: standard decimal rendering. -/
def natRepr (n : Nat) : String := String.mk (natReprAux (n + 1) n)

/-- Python `str(i)` for an integer. -/
def intRepr : Int → String
  | .ofNat n => natRepr n
  | .negSucc n => "-" ++ natRepr (n + 1)

/-- Numeric value of a digit string (left fold); used only in proofs. -/
def strVal (l : List Char) : Nat :=
  l.foldl (fun a c => 10 * a + (c.toNat - 48)) 0

/-! ### Python `int()` parsing (ASCII) -/

/-- Value of an ASCII digit. -/
def digitVal (c : Char) : Nat := c.toNat - 48

/-- Parse the tail of a digit run; a single `_` is allowed between digits. -/
def digitsRest : Nat → List Char → Option Nat
  | acc, [] => some acc
  | acc, c :: cs =>
    if c.isDigit then digitsRest (10 * acc + digitVal c) cs
    else if c = '_' then
      match cs with
      | d :: cs2 => if d.isDigit then digitsRest (10 * acc + digitVal d) cs2 else none
      | [] => none
    else none

/-- Parse a non-empty ASCII digit run (with Python's underscore grouping). -/
def digitsVal : List Char → Option Nat
  | [] => none
  | c :: cs => if c.isDigit then digitsRest (digitVal c) cs else none

/-- Python `int(s)`: strip whitespace, optional sign, decimal digits.
    Returns `none` where Python raises `ValueError`. -/
def pyIntParse (s : String) : Option Int :=
  match (pyStrip s).data with
  | '-' :: rest => (digitsVal rest).map (fun n => -(n : Int))
  | '+' :: rest => (digitsVal rest).map (fun n => (n : Int))
  | t => (digitsVal t).map (fun n => (n : Int))

/-! ### Configuration (`parse_args` argument record with argparse defaults) -/

/-- The argparse result record.  `Option` fields default to Python `None`;
    `none` and `some ""` are falsy for string options, `some 0` is falsy for
    `max_running_task`, matching Python truthiness tests in the source. -/
structure Args where
  begin : Option String := none
  cpu : Int := 1
  mem : Option Int := none
  environ : Option String := none
  final : Option String := none
  hold : Option String := none
  nosubmit : Bool := false
  max_running_task : Option Int := none
  name : Option String := none
  noemail : Bool := false
  sync : Bool := false
  hard_sync : Bool := false
  priority : Int := 50
  queue : String := "global"
  stdoutdir : String := "slurm_output"
  quiet : Bool := false

/-- Python truthiness of an `Optional[str]`. -/
def pyTruthyStr : Option String → Bool
  | none => false
  | some s => s ≠ ""

/-- Python truthiness of an `Optional[int]`. -/
def pyTruthyInt : Option Int → Bool
  | none => false
  | some n => n ≠ 0

/-! ### Errors (Python exceptions / `exit(1)` paths reachable in the core) -/

inductive RunError where
  /-- `exit(1)` after "Input appears to be a SLURM or SGE batch file". -/
  | sbatchInput
  /-- `exit(1)` after "No commands supplied". -/
  | noCommands
  /-- Python `ValueError` from `int(...)`. -/
  | valueError
  /-- Python `IndexError` from `args.environ.split()[-1]` on an all-space string. -/
  | indexError
  /-- A non-`FileExistsError` failure from `open(..., 'x')`. -/
  | createError
  /-- Model artifact: the `open_sesame` retry loop ran out of fuel. -/
  | outOfFuel
deriving DecidableEq

/-! ### Command ingestion (the read loop in `main`, lines 80-90) -/

/-- A stripped line that looks like a native scheduler directive. -/
def isDirective (s : String) : Bool :=
  pyStartsWith s "#SBATCH " || pyStartsWith s "#$ -"

/-- The `for l in input_file` loop of `main`: strip each line; reject
    directive-like lines; stop at a lone `.`; skip blanks and comments;
    collect everything else in order. -/
def readCommands : List String → Except RunError (List String)
  | [] => .ok []
  | l :: ls =>
    let s := pyStrip l
    if isDirective s then .error .sbatchInput
    else if s = "." then .ok []
    else if s = "" || pyStartsWith s "#" then readCommands ls
    else (readCommands ls).map (fun cs => s :: cs)

/-- What the read loop keeps from a single non-directive, non-sentinel line. -/
def keptCommand (l : String) : Option String :=
  let s := pyStrip l
  if s = "" || pyStartsWith s "#" then none else some s

/-! ### Header compilation (`write_header`) -/

/-- `cpu_count` of `write_header`: the legacy `--environ` spec overrides the
    core count when `--cpu` is at its default of 1. -/
def cpu_count (args : Args) : Except RunError Int :=
  if args.cpu = 1 ∧ pyTruthyStr args.environ then
    match args.environ with
    | none => .ok args.cpu
    | some e =>
      match (pySplitWs e).getLast? with
      | none => .error .indexError
      | some w =>
        match pyIntParse w with
        | none => .error .valueError
        | some v => .ok v
  else .ok args.cpu

/-- `mem_limit` of `write_header`: `args.mem or (6144 * args.cpu)`. -/
def mem_limit (args : Args) : Int :=
  match args.mem with
  | some m => if m = 0 then 6144 * args.cpu else m
  | none => 6144 * args.cpu

/-- `array_param` of `write_header`: `0-(task_count-1)`, with a `%limit`
    throttle suffix when `args.max_running_task` is truthy. -/
def array_param (args : Args) (task_count : Nat) : String :=
  "0-" ++ intRepr ((task_count : Int) - 1) ++
    (if pyTruthyInt args.max_running_task then
       "%" ++ intRepr ((args.max_running_task).getD 0)
     else "")

/-- `munge_hold_arg`: pass colon-containing values through, otherwise parse a
    comma-separated integer list into `afterok:id1:id2:...`. -/
def holdIds : List String → Option (List Int)
  | [] => some []
  | j :: rest =>
    match pyIntParse j, holdIds rest with
    | some v, some vs => some (v :: vs)
    | _, _ => none

def munge_hold_arg (hold_arg : String) : Except RunError String :=
  if pyContains hold_arg ':' then .ok hold_arg
  else
    match holdIds (pySplitChar hold_arg ',') with
    | some vs => .ok ("afterok:" ++ pyJoin ":" (vs.map intRepr))
    | none => .error .valueError

/-- The first eight header lines (fixed part of `write_header`). -/
def headerBase (args : Args) (scriptName : String) (task_count : Nat)
    (cc : Int) : List String :=
  let jobname := pyDropRight (basename scriptName) 7
  ["#!/bin/bash",
   "#",
   "#SBATCH -a " ++ ljust (array_param args task_count) 17 ++
     "   # array of tasks and max number to run at once",
   "#SBATCH -n 1                   # 1 task per node (fixed for all msub jobs)",
   "#SBATCH -c " ++ ljust (intRepr cc) 15 ++ "     # number of cores per task",
   "#SBATCH --mem " ++ ljust (intRepr (mem_limit args)) 15 ++
     "  # memory pool per task (not per core)",
   "#SBATCH -o " ++ args.stdoutdir ++ "/" ++ jobname ++ ".%A.%a.out     # STDOUT",
   "#SBATCH -e " ++ args.stdoutdir ++ "/" ++ jobname ++ ".%A.%a.err     # STDERR"]

/-- The optional `-d` (dependency hold) header line. -/
def holdLines (args : Args) : Except RunError (List String) :=
  match args.hold with
  | none => .ok []
  | some h =>
    if h ≠ "" then
      match munge_hold_arg h with
      | .ok ha => .ok ["#SBATCH -d " ++ ha ++ "  # hold off waiting for jobs"]
      | .error e => .error e
    else .ok []

def mailLines (args : Args) : List String :=
  if args.noemail then ["#SBATCH --mail-type=NONE       # no email"]
  else ["#SBATCH --mail-type=END,FAIL   # notifications for job done & fail"]

def strictLines : List String :=
  ["", "set -euo pipefail", "IFS=$'\\n\\t'", ""]

def beginLines (args : Args) : List String :=
  match args.begin with
  | some b => if b ≠ "" then [b, ""] else []
  | none => []

def caseOpenLines : List String :=
  ["TASK=$\x7bTASK:-unset\x7d", "case $\x7bSLURM_ARRAY_TASK_ID:-$TASK\x7d in"]

/-- `write_header`: all header lines, or the Python exception it raises. -/
def write_header (args : Args) (scriptName : String) (task_count : Nat) :
    Except RunError (List String) :=
  match cpu_count args with
  | .error e => .error e
  | .ok cc =>
    match holdLines args with
    | .error e => .error e
    | .ok hl =>
      .ok (headerBase args scriptName task_count cc ++ hl ++ mailLines args ++
           strictLines ++ beginLines args ++ caseOpenLines)

/-! ### Body compilation (`write_command` over `enumerate(command_list)`) -/

/-- `write_command`: `print("{}) {}\n;;".format(task_number, cmd))`
    emits two lines. -/
def write_command (cmd : String) (task_number : Nat) : List String :=
  [natRepr task_number ++ ") " ++ cmd, ";;"]

/-- The dispatch-body lines, one branch per command in input order. -/
def bodyLines (cmds : List String) : List String :=
  cmds.enum.flatMap (fun ic => write_command ic.2 ic.1)

/-- The dispatch branches as (label, command) pairs, labels from
    `enumerate`, starting at `k`. -/
def branchesFrom (k : Nat) (cmds : List String) : List (String × String) :=
  (List.enumFrom k cmds).map (fun ic => (natRepr ic.1, ic.2))

/-- The dispatch branches of the compiled script. -/
def caseBranches (cmds : List String) : List (String × String) :=
  cmds.enum.map (fun ic => (natRepr ic.1, ic.2))

/-- Result of the script's `case` dispatch on a selector value. -/
inductive DispatchResult where
  | task (cmd : String)
  | fallthrough
deriving DecidableEq

/-- Shell `case` semantics over the emitted branches: the first branch whose
    label equals the selector runs; otherwise the `*)` default is reached. -/
def runCase (sel : String) : List (String × String) → DispatchResult
  | [] => .fallthrough
  | (lbl, cmd) :: rest => if sel = lbl then .task cmd else runCase sel rest

/-! ### Footer compilation (`write_footer`) -/

/-- The optional trailing `--final` command line. -/
def finalLines (args : Args) : List String :=
  match args.final with
  | some f => if f ≠ "" then [f] else []
  | none => []

def write_footer (args : Args) : List String :=
  ["*) echo \"Unexpected SLURM_ARRAY_TASK_ID=$\x7bSLURM_ARRAY_TASK_ID:-$TASK\x7d\"",
   "esac",
   ""] ++ finalLines args

/-- The lines of the `*)` default branch (everything before `esac`). -/
def defaultBranchLines (args : Args) : List String :=
  (write_footer args).takeWhile (fun l => l != "esac")

/-- Substring test (used to formalise "the branch contains an X command"). -/
def hasSub (needle hay : List Char) : Bool :=
  hay.tails.any (fun t => List.isPrefixOf needle t)

/-! ### Collision-safe writer (`open_sesame`) -/

/-- Outcome of one `open(name, 'x')` attempt against the filesystem. -/
inductive CreateResult where
  /-- Exclusive create succeeded: the name was free. -/
  | created
  /-- Python `FileExistsError`: the name is taken. -/
  | fileExists
  /-- Any other `OSError` (permissions, bad directory, ...). -/
  | otherError
deriving DecidableEq

/-- The candidate name tried at loop counter `k` (`k = 0` is the original
    name).  For `k ≥ 1` the counter is inserted before the last `.`-segment
    of the original name when its basename has a dot, else appended. -/
def mangled (filename : String) (k : Nat) : String :=
  if k = 0 then filename
  else if pyContains (basename filename) '.' then
    let parts := pySplitChar filename '.'
    pyJoin "." (parts.dropLast ++ [natRepr k] ++ [parts.getLastD ""])
  else filename ++ "." ++ natRepr k

/-- Outcome of the `open_sesame.__init__` retry loop. -/
inductive SesameResult where
  | opened (name : String)
  /-- A non-`FileExistsError` escaped the loop. -/
  | failed
  /-- Model artifact: fuel ran out while every candidate existed. -/
  | spin
deriving DecidableEq

/-- The `while True` retry loop of `open_sesame.__init__`, with the
    filesystem abstracted as a create-attempt oracle and explicit fuel. -/
def openSesameGo (fs : String → CreateResult) (filename : String) :
    Nat → Nat → SesameResult
  | _, 0 => .spin
  | counter, fuel + 1 =>
    match fs (mangled filename counter) with
    | .created => .opened (mangled filename counter)
    | .otherError => .failed
    | .fileExists => openSesameGo fs filename (counter + 1) fuel

/-! ### Submission launcher (`main`, lines 117-137) -/

/-- `job_flags`: partition, niceness, and the long-form wait flag. -/
def job_flags (args : Args) : List String :=
  ["-p", args.queue] ++ ["--nice=" ++ intRepr args.priority] ++
    (if args.sync then ["--wait"] else [])

/-- Observable effect of the launch step. -/
inductive LaunchOutcome where
  /-- `--nosubmit`: the assembled command line is printed, nothing runs. -/
  | preview (printed : String)
  /-- Live mode: `os.makedirs(dir)` then `os.execlp(prog, argv...)`. -/
  | live (dirMade : String) (prog : String) (argv : List String)
deriving DecidableEq

/-- Lines 128-137 of `main`: preview or submit the generated script. -/
def launch (args : Args) (sbatch : String) (script_file : String) :
    LaunchOutcome :=
  if args.nosubmit then
    .preview (pyJoin " "
      (["mkdir -p", args.stdoutdir, ";", sbatch] ++ job_flags args ++ [script_file]))
  else
    .live args.stdoutdir sbatch (sbatch :: (job_flags args ++ [script_file]))

/-- Directories created by a launch outcome. -/
def dirsCreated : LaunchOutcome → List String
  | .preview _ => []
  | .live d _ _ => [d]

/-- Submission-executable invocations performed by a launch outcome. -/
def execCalls : LaunchOutcome → List (String × List String)
  | .preview _ => []
  | .live _ p a => [(p, a)]

/-- Lines printed to stdout by a launch outcome. -/
def printedLines : LaunchOutcome → List String
  | .preview s => [s]
  | .live _ _ _ => []

/-! ### The run up to the script write (`main`, lines 79-106) -/

/-- `main` from the read loop to the script write: ingest the commands,
    reject empty input, pick a collision-free file name and produce the
    script's lines.  Returns the written file's name and contents, or the
    error that aborted the run before any file was created. -/
def runMsub (args : Args) (fs : String → CreateResult) (job_name : String)
    (lines : List String) (fuel : Nat) :
    Except RunError (String × List String) :=
  match readCommands lines with
  | .error e => .error e
  | .ok cmds =>
    if cmds.isEmpty then .error .noCommands
    else
      match openSesameGo fs (job_name ++ ".sbatch") 0 fuel with
      | .failed => .error .createError
      | .spin => .error .outOfFuel
      | .opened name =>
        match write_header args name cmds.length with
        | .error e => .error e
        | .ok hdr => .ok (name, hdr ++ bodyLines cmds ++ write_footer args)

/-! ### Concrete inputs used in counterexamples and witnesses -/

/-- A configuration using the legacy parallel-environment spec:
    `--cpu` left at its default of 1, `--environ "single 4"`, no `--mem`. -/
def c3Args : Args := { cpu := 1, environ := some "single 4" }

/-- A configuration with a configured max-running-task limit of 0. -/
def c4Args : Args := { max_running_task := some 0 }

/-- A filesystem oracle on which `job.sbatch` and `job.1.sbatch` already
    exist and every other name is free. -/
def exampleFs : String → CreateResult :=
  fun n => if n = "job.sbatch" || n = "job.1.sbatch" then .fileExists else .created

/-! ### Lemmas about decimal rendering -/

theorem strVal_append_digit (l : List Char) (c : Char) :
    strVal (l ++ [c]) = 10 * strVal l + (c.toNat - 48) := by
  simp [strVal, List.foldl_append]

theorem digitChar_toNat {n : Nat} (h : n < 10) : (digitChar n).toNat = 48 + n := by
  interval_cases n <;> decide

theorem strVal_natReprAux {fuel n : Nat} (h : n < fuel) :
    strVal (natReprAux fuel n) = n := by
  induction fuel generalizing n with
  | zero => omega
  | succ fuel ih =>
    by_cases h10 : n < 10
    · simp only [natReprAux, if_pos h10]
      simp [strVal, digitChar_toNat h10]
    · simp only [natReprAux, if_neg h10]
      rw [strVal_append_digit, ih (by omega), digitChar_toNat (Nat.mod_lt _ (by omega))]
      omega

theorem strVal_natRepr (n : Nat) : strVal (natRepr n).data = n := by
  simp [natRepr]
  exact strVal_natReprAux (Nat.lt_succ_self n)

theorem natRepr_injective : Function.Injective natRepr := by
  intro m n h
  have : strVal (natRepr m).data = strVal (natRepr n).data := by rw [h]
  rwa [strVal_natRepr, strVal_natRepr] at this

/-! ### Lemmas about ingestion -/

theorem pyStrip_dot : pyStrip "." = "." := rfl

theorem isDirective_dot : isDirective "." = false := rfl

/-- A lone `.` behaves exactly like end of input: everything after the first
    sentinel is ignored, and the sentinel itself introduces no error. -/
theorem readCommands_append_sentinel (pre post : List String) :
    readCommands (pre ++ "." :: post) = readCommands pre := by
  induction pre with
  | nil =>
    simp [readCommands, pyStrip_dot, isDirective_dot]
  | cons l ls ih =>
    by_cases hd : isDirective (pyStrip l)
    · simp [readCommands, hd]
    · by_cases hs : pyStrip l = "."
      · simp [readCommands, hd, hs]
      · by_cases hb : (pyStrip l = "" || pyStartsWith (pyStrip l) "#") = true
        · simp [readCommands, hd, hs, hb, ih]
        · simp [readCommands, hd, hs, hb, ih]

/-- With no directive-like line and no sentinel, ingestion succeeds and keeps
    exactly the non-blank, non-comment lines, stripped, in order. -/
theorem readCommands_clean (pre : List String)
    (hdir : ∀ l ∈ pre, isDirective (pyStrip l) = false)
    (hdot : ∀ l ∈ pre, pyStrip l ≠ ".") :
    readCommands pre = .ok (pre.filterMap keptCommand) := by
  induction pre with
  | nil => rfl
  | cons l ls ih =>
    have hd := hdir l (List.mem_cons_self l ls)
    have hs := hdot l (List.mem_cons_self l ls)
    have ih' := ih (fun x hx => hdir x (List.mem_cons_of_mem l hx))
      (fun x hx => hdot x (List.mem_cons_of_mem l hx))
    by_cases hb : (pyStrip l = "" || pyStartsWith (pyStrip l) "#") = true
    · have hk : keptCommand l = none := by
        simp only [keptCommand]
        rw [if_pos hb]
      simp [readCommands, hd, hs, hb, ih', List.filterMap_cons, hk]
    · have hk : keptCommand l = some (pyStrip l) := by
        simp only [keptCommand]
        rw [if_neg hb]
      simp [readCommands, hd, hs, hb, ih', List.filterMap_cons, hk, Except.map]

/-- A directive-like line anywhere before the first sentinel aborts
    ingestion with the batch-file-input error. -/
theorem readCommands_directive (pre : List String) (l : String)
    (post : List String)
    (hl : isDirective (pyStrip l) = true)
    (hdot : ∀ x ∈ pre, pyStrip x ≠ ".") :
    readCommands (pre ++ l :: post) = .error .sbatchInput := by
  induction pre with
  | nil => simp [readCommands, hl]
  | cons x xs ih =>
    have hs := hdot x (List.mem_cons_self x xs)
    have ih' := ih (fun y hy => hdot y (List.mem_cons_of_mem x hy))
    by_cases hd : isDirective (pyStrip x)
    · simp [readCommands, hd]
    · by_cases hb : (pyStrip x = "" || pyStartsWith (pyStrip x) "#") = true
      · simp [readCommands, hd, hs, hb, ih']
      · simp [readCommands, hd, hs, hb, ih', Except.map]

/-! ### Lemmas about the dispatch body -/

theorem branchesFrom_nil (k : Nat) : branchesFrom k [] = [] := rfl

theorem branchesFrom_cons (k : Nat) (c : String) (cs : List String) :
    branchesFrom k (c :: cs) = (natRepr k, c) :: branchesFrom (k + 1) cs := by
  simp [branchesFrom, List.enumFrom_cons]

theorem caseBranches_eq_branchesFrom (cmds : List String) :
    caseBranches cmds = branchesFrom 0 cmds := rfl

/-- `case` lookup over the emitted branches: branch labels starting at `k`
    match the selector `str(i)` exactly at offset `i - k`. -/
theorem runCase_branchesFrom (cmds : List String) (k i : Nat) :
    runCase (natRepr i) (branchesFrom k cmds) =
      if k ≤ i then
        (match cmds[i - k]? with
         | some c => .task c
         | none => .fallthrough)
      else .fallthrough := by
  induction cmds generalizing k with
  | nil =>
    simp only [branchesFrom_nil, runCase, List.getElem?_nil]
    split <;> rfl
  | cons c cs ih =>
    rw [branchesFrom_cons]
    by_cases hik : i = k
    · subst hik
      simp [runCase]
    · have hne : natRepr i ≠ natRepr k := fun h => hik (natRepr_injective h)
      simp only [runCase, if_neg hne, ih (k + 1)]
      by_cases hk : k ≤ i
      · have hk1 : k + 1 ≤ i := by omega
        rw [if_pos hk1, if_pos hk]
        have : i - k = (i - (k + 1)) + 1 := by omega
        rw [this, List.getElem?_cons_succ]
      · have hk1 : ¬ (k + 1 ≤ i) := by omega
        rw [if_neg hk1, if_neg hk]

/-! ### Lemmas about the collision-safe writer -/

/-- If the retry loop opened `name`, then `name` is the candidate at some
    counter `k ≥ c`, its exclusive create succeeded (so nothing existing was
    touched), and every earlier candidate from `c` on was already taken. -/
theorem openSesameGo_opened (fs : String → CreateResult) (f : String) :
    ∀ (fuel c : Nat) (name : String),
      openSesameGo fs f c fuel = .opened name →
      ∃ k, c ≤ k ∧ name = mangled f k ∧ fs (mangled f k) = .created ∧
        ∀ j, c ≤ j → j < k → fs (mangled f j) = .fileExists := by
  intro fuel
  induction fuel with
  | zero => intro c name h; exact absurd h (by simp [openSesameGo])
  | succ fuel ih =>
    intro c name h
    rw [openSesameGo] at h
    cases hfs : fs (mangled f c) with
    | created =>
      rw [hfs] at h
      injection h with h
      exact ⟨c, le_refl c, h.symm, h ▸ hfs, fun j hj hjc => absurd hjc (by omega)⟩
    | otherError => rw [hfs] at h; exact absurd h (by simp)
    | fileExists =>
      rw [hfs] at h
      obtain ⟨k, hck, hname, hcr, hall⟩ := ih (c + 1) name h
      refine ⟨k, by omega, hname, hcr, fun j hj hjk => ?_⟩
      rcases Nat.eq_or_lt_of_le hj with rfl | hlt
      · exact hfs
      · exact hall j hlt hjk

/-! ### Lemmas about the header and the hold-argument translation -/

theorem pyEndsWith_append (s p : String) : pyEndsWith (s ++ p) p = true := by
  rw [pyEndsWith, List.isSuffixOf_iff_suffix, String.data_append]
  exact List.suffix_append s.data p.data

/-- `holdIds` fails exactly when some comma-separated entry fails to parse
    as an integer. -/
theorem holdIds_none_iff (l : List String) :
    holdIds l = none ↔ ∃ p ∈ l, pyIntParse p = none := by
  induction l with
  | nil => simp [holdIds]
  | cons j rest ih =>
    cases hj : pyIntParse j with
    | none =>
      simp only [holdIds, hj, List.mem_cons]
      exact ⟨fun _ => ⟨j, Or.inl rfl, hj⟩, fun _ => trivial⟩
    | some v =>
      cases hr : holdIds rest with
      | none =>
        simp only [holdIds, hj, hr, List.mem_cons]
        constructor
        · intro _
          obtain ⟨p, hp, hpn⟩ := ih.mp hr
          exact ⟨p, Or.inr hp, hpn⟩
        · intro _; trivial
      | some vs =>
        simp only [holdIds, hj, hr, List.mem_cons]
        constructor
        · intro h; simp at h
        · rintro ⟨p, hp | hp, hpn⟩
          · rw [hp] at hpn; simp [hpn] at hj
          · have hres := ih.mpr ⟨p, hp, hpn⟩
            rw [hr] at hres; simp at hres

theorem headerBase_length (args : Args) (nm : String) (n : Nat) (cc : Int) :
    (headerBase args nm n cc).length = 8 := rfl

/-- A successful `write_header` starts with the eight fixed directive lines
    computed from the configuration. -/
theorem write_header_ok (args : Args) (nm : String) (n : Nat)
    (hl : List String) (h : write_header args nm n = .ok hl) :
    ∃ cc tail, cpu_count args = .ok cc ∧
      hl = headerBase args nm n cc ++ tail := by
  rw [write_header] at h
  cases hc : cpu_count args with
  | error e => rw [hc] at h; exact absurd h (by simp)
  | ok cc =>
    rw [hc] at h
    cases hh : holdLines args with
    | error e => rw [hh] at h; exact absurd h (by simp)
    | ok hli =>
      rw [hh] at h
      injection h with h
      refine ⟨cc, hli ++ mailLines args ++ strictLines ++ beginLines args ++
        caseOpenLines, rfl, ?_⟩
      rw [← h]
      simp [List.append_assoc]

theorem write_header_array_line (args : Args) (nm : String) (n : Nat)
    (hl : List String) (h : write_header args nm n = .ok hl) :
    hl[2]? = some ("#SBATCH -a " ++ ljust (array_param args n) 17 ++
      "   # array of tasks and max number to run at once") := by
  obtain ⟨cc, tail, _, rfl⟩ := write_header_ok args nm n hl h
  rw [List.getElem?_append]
  · simp [headerBase]

theorem write_header_mem_line (args : Args) (nm : String) (n : Nat)
    (hl : List String) (h : write_header args nm n = .ok hl) :
    hl[5]? = some ("#SBATCH --mem " ++ ljust (intRepr (mem_limit args)) 15 ++
      "  # memory pool per task (not per core)") := by
  obtain ⟨cc, tail, _, rfl⟩ := write_header_ok args nm n hl h
  rw [List.getElem?_append]
  · simp [headerBase]

/-! ### The claims -/

/-- Claim C1: for every non-empty ordered list of task commands, the compiled
    script's dispatch body has exactly one branch per task — the branch text is
    the 0-based index, `") "`, the literal command, then the `;;` marker —
    branches appear in input order with dense labels starting at 0, and under
    `case` first-match semantics task `i`'s command runs iff the selector
    equals `i`. -/
theorem claim_C1 (cmds : List String) (_hne : cmds ≠ []) :
    bodyLines cmds =
      (caseBranches cmds).flatMap (fun b => [b.1 ++ ") " ++ b.2, ";;"]) ∧
    (caseBranches cmds).map Prod.fst = (List.range cmds.length).map natRepr ∧
    (caseBranches cmds).map Prod.snd = cmds ∧
    (∀ i (h : i < cmds.length),
       runCase (natRepr i) (caseBranches cmds) = .task cmds[i]) ∧
    (∀ i, cmds.length ≤ i →
       runCase (natRepr i) (caseBranches cmds) = .fallthrough) := by
  refine ⟨?_, ?_, ?_, ?_, ?_⟩
  · simp [bodyLines, caseBranches, List.flatMap_map, write_command]
  · rw [caseBranches, List.map_map, ← List.enum_map_fst cmds, List.map_map]
    rfl
  · rw [caseBranches, List.map_map]
    exact List.enum_map_snd cmds
  · intro i h
    rw [caseBranches_eq_branchesFrom, runCase_branchesFrom]
    simp [Nat.zero_le, List.getElem?_eq_getElem h]
  · intro i h
    rw [caseBranches_eq_branchesFrom, runCase_branchesFrom, if_pos (Nat.zero_le i)]
    have hnone : cmds[i - 0]? = none := List.getElem?_eq_none (by omega)
    rw [hnone]

/-- Witness for C1 at a concrete two-command list. -/
theorem claim_C1_witness :
    runCase (natRepr 1) (caseBranches ["echo a", "echo b"]) = .task "echo b" :=
  (claim_C1 ["echo a", "echo b"] (by decide)).2.2.2.1 1 (by decide)

/-- Claim C2 (as stated, refuted): the footer's default branch would report
    the unexpected selector AND exit non-zero.  The default branch of the
    generated footer is a single `echo`; no line of it contains an `exit`
    command at all, so it cannot exit non-zero (after the `echo`, control
    simply falls through `esac`). -/
theorem claim_C2_counterexample :
    defaultBranchLines {} =
      ["*) echo \"Unexpected SLURM_ARRAY_TASK_ID=$\x7bSLURM_ARRAY_TASK_ID:-$TASK\x7d\""] ∧
    ¬ ∃ l ∈ defaultBranchLines {}, hasSub "exit".data l.data = true := by
  refine ⟨rfl, ?_⟩
  decide

/-- Claim C2 (amended): for every configuration, the footer's default branch
    is exactly one line, `*) echo "Unexpected SLURM_ARRAY_TASK_ID=..."`,
    which reports the unexpected selector value (it names the selector
    variable and says "Unexpected") but contains no `exit`, so the script
    does not exit non-zero from the default branch. -/
theorem claim_C2 (args : Args) :
    defaultBranchLines args =
      ["*) echo \"Unexpected SLURM_ARRAY_TASK_ID=$\x7bSLURM_ARRAY_TASK_ID:-$TASK\x7d\""] ∧
    (∀ l ∈ defaultBranchLines args,
       hasSub "Unexpected".data l.data = true ∧
       hasSub "SLURM_ARRAY_TASK_ID".data l.data = true ∧
       hasSub "exit".data l.data = false) := by
  have hlines : defaultBranchLines args =
      ["*) echo \"Unexpected SLURM_ARRAY_TASK_ID=$\x7bSLURM_ARRAY_TASK_ID:-$TASK\x7d\""] := by
    rw [defaultBranchLines, write_footer]
    simp only [List.cons_append, List.nil_append]
    rw [List.takeWhile_cons, if_pos (by decide), List.takeWhile_cons,
      if_neg (by decide)]
  refine ⟨hlines, ?_⟩
  rw [hlines]
  intro l hl
  rw [List.mem_singleton] at hl
  subst hl
  refine ⟨by decide, by decide, by decide⟩

/-- Witness for C2: the default branch's one line contains no `exit`. -/
theorem claim_C2_witness :
    hasSub "exit".data
      "*) echo \"Unexpected SLURM_ARRAY_TASK_ID=$\x7bSLURM_ARRAY_TASK_ID:-$TASK\x7d\"".data
      = false :=
  ((claim_C2 {}).2 _
    (by rw [(claim_C2 {}).1]; exact List.mem_singleton.mpr rfl)).2.2

/-- Claim C3 (as stated, refuted): "with no explicit memory the directive
    value equals 6144 times the core count".  The code computes the default
    from `args.cpu`, not from the emitted core count: with `--cpu` at its
    default of 1 and a legacy `--environ "single 4"` spec, the cores
    directive value is 4 but the memory value is `6144 * 1 = 6144`, not
    `6144 * 4`. -/
theorem claim_C3_counterexample :
    ¬ (∀ (args : Args) (cc : Int), cpu_count args = .ok cc →
         args.mem = none → mem_limit args = 6144 * cc) := by
  intro h
  have hc : cpu_count c3Args = .ok 4 := rfl
  have hm := h c3Args 4 hc rfl
  rw [show mem_limit c3Args = 6144 from rfl] at hm
  exact absurd hm (by decide)

/-- Claim C3 (amended): with no explicit memory value — or an explicit value
    of 0, which Python truthiness also treats as unset — the memory directive
    value is `6144 * args.cpu` (the `--cpu` argument, which is the emitted
    core count except when a legacy `--environ` spec overrides the core
    count); a nonzero explicit memory value is emitted as given.  The value
    appears in header line 5 (0-based), and `cpu = 4` without memory gives
    24576. -/
theorem claim_C3 :
    (∀ args : Args, args.mem = none ∨ args.mem = some 0 →
       mem_limit args = 6144 * args.cpu) ∧
    (∀ (args : Args) (m : Int), args.mem = some m → m ≠ 0 →
       mem_limit args = m) ∧
    (∀ (args : Args) (nm : String) (n : Nat) (hl : List String),
       write_header args nm n = .ok hl →
       hl[5]? = some ("#SBATCH --mem " ++ ljust (intRepr (mem_limit args)) 15 ++
         "  # memory pool per task (not per core)")) ∧
    mem_limit { cpu := 4 } = 24576 := by
  refine ⟨?_, ?_, fun args nm n hl h => write_header_mem_line args nm n hl h, rfl⟩
  · intro args hm
    rcases hm with hm | hm <;> simp [mem_limit, hm]
  · intro args m hm hne
    simp [mem_limit, hm, hne]

/-- Witness for C3 at a concrete explicit memory value. -/
theorem claim_C3_witness : mem_limit { mem := some 1000 } = 1000 :=
  claim_C3.2.1 { mem := some 1000 } 1000 rfl (by decide)

/-- Claim C4 (as stated, refuted): "if a max-concurrent-tasks limit L is
    configured the directive ends with %L".  A configured limit of 0 is
    falsy in Python, so the code omits the suffix: with
    `max_running_task = 0` and one task the directive is `0-0`, which does
    not end with `%0`. -/
theorem claim_C4_counterexample :
    ¬ (∀ (args : Args) (L : Int) (n : Nat), args.max_running_task = some L →
         1 ≤ n → pyEndsWith (array_param args n) ("%" ++ intRepr L) = true) := by
  intro h
  have := h c4Args 0 1 rfl (by decide)
  exact absurd this (by decide)

/-- Claim C4 (amended): for every task count `n ≥ 1` the array directive
    value spans `0` to `n-1` (`0-0` for one task); it carries a `%L`
    throttle suffix exactly when a nonzero limit `L` is configured, and is
    the bare range (no suffix at all) when the limit is unset or 0.  The
    value appears in header line 2 (0-based). -/
theorem claim_C4 :
    (∀ (args : Args) (n : Nat), 1 ≤ n →
       ((args.max_running_task = none ∨ args.max_running_task = some 0) →
          array_param args n = "0-" ++ intRepr ((n : Int) - 1)) ∧
       (∀ L : Int, args.max_running_task = some L → L ≠ 0 →
          array_param args n =
            "0-" ++ intRepr ((n : Int) - 1) ++ ("%" ++ intRepr L) ∧
          pyEndsWith (array_param args n) ("%" ++ intRepr L) = true) ∧
       (∀ (nm : String) (hl : List String), write_header args nm n = .ok hl →
          hl[2]? = some ("#SBATCH -a " ++ ljust (array_param args n) 17 ++
            "   # array of tasks and max number to run at once"))) ∧
    array_param {} 1 = "0-0" := by
  refine ⟨?_, rfl⟩
  intro args n _
  refine ⟨?_, ?_, fun nm hl h => write_header_array_line args nm n hl h⟩
  · intro hm
    rcases hm with hm | hm <;> simp [array_param, pyTruthyInt, hm]
  · intro L hm hL
    have harr : array_param args n =
        ("0-" ++ intRepr ((n : Int) - 1)) ++ ("%" ++ intRepr L) := by
      simp [array_param, hm, pyTruthyInt, hL]
    exact ⟨harr, harr ▸ pyEndsWith_append _ _⟩

/-- Witness for C4 at a concrete nonzero limit. -/
theorem claim_C4_witness :
    array_param { max_running_task := some 3 } 5 = "0-4%3" :=
  ((claim_C4.1 { max_running_task := some 3 } 5 (by decide)).2.1 3 rfl
    (by decide)).1

/-- Claim C5: the dependency-spec translation passes colon-containing values
    through unchanged; otherwise it splits on commas and produces
    `afterok:` followed by the colon-joined (canonically rendered) integer
    ids, raising `ValueError` exactly when some comma-separated entry is not
    an integer.  `"12,34" → afterok:12:34`, `"aftercorr:99"` unchanged,
    `"12,x"` fails. -/
theorem claim_C5 :
    (∀ h : String, pyContains h ':' = true → munge_hold_arg h = .ok h) ∧
    (∀ h : String, pyContains h ':' = false →
       ((munge_hold_arg h = .error .valueError) ↔
          ∃ p ∈ pySplitChar h ',', pyIntParse p = none) ∧
       (∀ vs : List Int, holdIds (pySplitChar h ',') = some vs →
          munge_hold_arg h = .ok ("afterok:" ++ pyJoin ":" (vs.map intRepr)))) ∧
    munge_hold_arg "12,34" = .ok "afterok:12:34" ∧
    munge_hold_arg "aftercorr:99" = .ok "aftercorr:99" ∧
    munge_hold_arg "12,x" = .error .valueError := by
  refine ⟨?_, ?_, rfl, rfl, rfl⟩
  · intro h hc
    simp [munge_hold_arg, hc]
  · intro h hc
    constructor
    · rw [← holdIds_none_iff]
      cases hi : holdIds (pySplitChar h ',') with
      | none => simp [munge_hold_arg, hc, hi]
      | some vs => simp [munge_hold_arg, hc, hi]
    · intro vs hvs
      simp [munge_hold_arg, hc, hvs]

/-- Witness for C5 at a concrete colon-containing hold value. -/
theorem claim_C5_witness : munge_hold_arg "after:1:2" = .ok "after:1:2" :=
  claim_C5.1 "after:1:2" rfl

/-- Claim C6: the collision-safe writer opens only a name whose exclusive
    create succeeded (so no existing file is truncated or overwritten);
    the name opened is the candidate at some counter `k`, with every earlier
    candidate (counters 0..k-1, i.e. the original name then counters
    inserted before the last extension segment of the original name, or
    appended when the basename has none) having reported "file exists"; a
    non-"exists" creation error aborts the loop immediately. -/
theorem claim_C6 :
    (∀ (fs : String → CreateResult) (f : String) (fuel : Nat) (name : String),
       openSesameGo fs f 0 fuel = .opened name →
       ∃ k, name = mangled f k ∧ fs name = .created ∧
         ∀ j < k, fs (mangled f j) = .fileExists) ∧
    (∀ (fs : String → CreateResult) (f : String) (c fuel : Nat),
       fs (mangled f c) = .otherError →
       openSesameGo fs f c (fuel + 1) = .failed) ∧
    mangled "job.sbatch" 0 = "job.sbatch" ∧
    mangled "job.sbatch" 1 = "job.1.sbatch" ∧
    mangled "job.sbatch" 2 = "job.2.sbatch" ∧
    mangled "name" 3 = "name.3" := by
  refine ⟨?_, ?_, rfl, rfl, rfl, rfl⟩
  · intro fs f fuel name h
    obtain ⟨k, _, hname, hcr, hall⟩ := openSesameGo_opened fs f fuel 0 name h
    exact ⟨k, hname, hname ▸ hcr, fun j hj => hall j (Nat.zero_le j) hj⟩
  · intro fs f c fuel h
    simp [openSesameGo, h]

/-- Witness for C6: with `job.sbatch` and `job.1.sbatch` taken, the writer
    opens `job.2.sbatch`. -/
theorem claim_C6_witness :
    ∃ k, "job.2.sbatch" = mangled "job.sbatch" k ∧
      exampleFs "job.2.sbatch" = .created ∧
      ∀ j < k, exampleFs (mangled "job.sbatch" j) = .fileExists :=
  claim_C6.1 exampleFs "job.sbatch" 5 "job.2.sbatch" (by decide)

/-- Claim C7: a line whose stripped form starts with `#SBATCH ` or `#$ -`,
    appearing before any sentinel line, aborts the whole run with the
    batch-file-input error; the run fails before the collision-safe writer
    is consulted, so no output script is produced. -/
theorem claim_C7 (args : Args) (fs : String → CreateResult) (job_name : String)
    (fuel : Nat) (pre : List String) (l : String) (post : List String)
    (hl : isDirective (pyStrip l) = true)
    (hpre : ∀ x ∈ pre, pyStrip x ≠ ".") :
    runMsub args fs job_name (pre ++ l :: post) fuel = .error .sbatchInput := by
  simp [runMsub, readCommands_directive pre l post hl hpre]

/-- Witness for C7 at a concrete two-line input. -/
theorem claim_C7_witness :
    runMsub {} (fun _ => .created) "job" (["echo hi"] ++ "#SBATCH -p q" :: []) 3 =
      .error .sbatchInput :=
  claim_C7 {} (fun _ => .created) "job" 3 ["echo hi"] "#SBATCH -p q" []
    (by decide) (by decide)

/-- Claim C8: a lone `.` line truncates ingestion exactly like end of input:
    for every input, reading `pre ++ ["."] ++ post` gives the same result as
    reading `pre` alone — commands after the sentinel are never included and
    the sentinel itself never causes an error. -/
theorem claim_C8 (pre post : List String) :
    readCommands (pre ++ "." :: post) = readCommands pre :=
  readCommands_append_sentinel pre post

/-- Claim C9: with `--nosubmit` the program prints the assembled command line
    (directory-creation step, resolved submitter, flags, script path) and
    neither creates the output directory nor invokes the submitter; in live
    mode it creates the directory and execs the submitter, printing
    nothing. -/
theorem claim_C9 (args : Args) (sb sf : String) :
    (args.nosubmit = true →
       dirsCreated (launch args sb sf) = [] ∧
       execCalls (launch args sb sf) = [] ∧
       printedLines (launch args sb sf) =
         [pyJoin " " (["mkdir -p", args.stdoutdir, ";", sb, "-p", args.queue,
                       "--nice=" ++ intRepr args.priority] ++
                      (if args.sync then ["--wait"] else []) ++ [sf])]) ∧
    (args.nosubmit = false →
       dirsCreated (launch args sb sf) = [args.stdoutdir] ∧
       execCalls (launch args sb sf) =
         [(sb, sb :: ("-p" :: args.queue ::
            ("--nice=" ++ intRepr args.priority) ::
            ((if args.sync then ["--wait"] else []) ++ [sf])))] ∧
       printedLines (launch args sb sf) = []) := by
  constructor
  · intro h
    refine ⟨?_, ?_, ?_⟩ <;>
      simp [launch, h, job_flags, dirsCreated, execCalls, printedLines,
        List.append_assoc]
  · intro h
    refine ⟨?_, ?_, ?_⟩ <;>
      simp [launch, h, job_flags, dirsCreated, execCalls, printedLines,
        List.append_assoc]

/-- Witness for C9 at a concrete dry-run configuration. -/
theorem claim_C9_witness :
    printedLines (launch { nosubmit := true } "sbatch" "j.sbatch") =
      ["mkdir -p slurm_output ; sbatch -p global --nice=50 j.sbatch"] :=
  ((claim_C9 { nosubmit := true } "sbatch" "j.sbatch").1 rfl).2.2

/-- Claim C10: if the lines before the first sentinel contain no
    scheduler-directive line, ingestion succeeds — regardless of what
    follows the sentinel, which is never examined — and returns exactly the
    kept commands from before the sentinel. -/
theorem claim_C10 (pre post : List String)
    (hdir : ∀ l ∈ pre, isDirective (pyStrip l) = false)
    (hdot : ∀ l ∈ pre, pyStrip l ≠ ".") :
    readCommands (pre ++ "." :: post) = .ok (pre.filterMap keptCommand) := by
  rw [readCommands_append_sentinel]
  exact readCommands_clean pre hdir hdot

/-- Witness for C10: a directive line after the sentinel is harmless. -/
theorem claim_C10_witness :
    readCommands (["echo hi"] ++ "." :: ["#SBATCH -p q"]) = .ok ["echo hi"] :=
  claim_C10 ["echo hi"] ["#SBATCH -p q"] (by decide) (by decide)

end Msub
